import Mathlib

/-!
Verification of the conversational-flow engine of
`src/examples/week3_conversational/mod.ts` (class `ConversationalBot`).

The embedding is shallow and executable:

* JavaScript `RegExp(pattern, 'i').test(input)` is modelled by a regex AST
  (`Regex`) together with a Brzozowski-derivative matcher.  `Regex.dot`
  matches any character except the four JS line terminators, `'i'` is
  modelled by case-folding both the pattern literals and the input with
  `Char.toLower` (the source's patterns are all lower-case ASCII, so simple
  folding is exact for them).  A transition table stores the pattern ASTs in
  declaration order, mirroring `Object.entries` enumeration order of a JS
  object literal with non-index string keys.
* JavaScript `String.prototype.replace(searchString, replacement)` with a
  string first argument is modelled by `jsReplace`: it rewrites only the
  first occurrence and expands the ECMA-262 `GetSubstitution` escapes
  (`$$`, `$&`, the dollar-backquote and dollar-quote forms; `$n` and `$<`
  stay literal because a string pattern has no capture groups).
* JS `Map` objects (`conversations`, `flows`) are association lists with
  insertion order; `mapSet` updates in place or appends, `mapDelete`
  removes the entry, exactly as `Map.set` / `Map.delete` behave on a map
  whose keys are unique.
* Timestamps are naturals (milliseconds); `Date.now() - last > timeout`
  is `now - last > timeout` on `Nat` (truncated subtraction agrees with the
  JS comparison for every `last`, since a negative difference and a zero
  one both fail the `> timeout` test).
* `sendMessage` calls are collected into the returned list of outbound
  message contents, in the order they are issued.
* The per-state `action` callback is modelled as an optional function from
  the user-data bag and the raw message content to a new bag, following the
  specification's data model ("may mutate session user-data"); the only
  action in the source (state `greeting`) writes only `state.userData`.
  Values in the bag are strings (the only writer stores a trimmed string,
  and `String(value)` on a string is the identity).
* `String.toLowerCase` / `String.trim` are modelled with `Char.toLower`
  (`jsToLower`) and a structural whitespace trim (`jsTrim`); both agree
  with JS on ASCII, which is all the source's triggers and patterns use.
-/

/-! ## Regex engine (model of `new RegExp(pattern, 'i').test`) -/

inductive Regex where
  | emp : Regex
  | eps : Regex
  | chr : Char → Regex
  | dot : Regex
  | alt : Regex → Regex → Regex
  | seq : Regex → Regex → Regex
  | star : Regex → Regex
deriving DecidableEq, Repr

def nullable : Regex → Bool
  | .emp => false
  | .eps => true
  | .chr _ => false
  | .dot => false
  | .alt a b => nullable a || nullable b
  | .seq a b => nullable a && nullable b
  | .star _ => true

/-- JS `.` (without the `s` flag) matches everything except the four
line-terminator code points. -/
def dotMatches (d : Char) : Bool :=
  !(d = Char.ofNat 10 || d = Char.ofNat 13 || d = Char.ofNat 0x2028 ||
    d = Char.ofNat 0x2029)

def rderiv : Regex → Char → Regex
  | .emp, _ => .emp
  | .eps, _ => .emp
  | .chr c, d => if c = d then .eps else .emp
  | .dot, d => if dotMatches d then .eps else .emp
  | .alt a b, d => .alt (rderiv a d) (rderiv b d)
  | .seq a b, d =>
      if nullable a then .alt (.seq (rderiv a d) b) (rderiv b d)
      else .seq (rderiv a d) b
  | .star a, d => .seq (rderiv a d) (.star a)

/-- Does some prefix of `cs` match `r`? -/
def matchHere (r : Regex) : List Char → Bool
  | [] => nullable r
  | c :: rest => nullable r || matchHere (rderiv r c) rest

/-- Does some contiguous substring of `cs` match `r`?  This is JS
`regex.test` for a regex without anchors. -/
def rtest (r : Regex) : List Char → Bool
  | [] => matchHere r []
  | c :: rest => matchHere r (c :: rest) || rtest r rest

/-- Case-fold the literal characters of a pattern (model of the `'i'` flag,
simple folding). -/
def ifold : Regex → Regex
  | .chr c => .chr c.toLower
  | .alt a b => .alt (ifold a) (ifold b)
  | .seq a b => .seq (ifold a) (ifold b)
  | .star a => .star (ifold a)
  | .emp => .emp
  | .eps => .eps
  | .dot => .dot

def jsToLower (s : String) : String := String.mk (s.data.map Char.toLower)

/-- Drop leading whitespace characters. -/
def trimLeftChars : List Char → List Char
  | [] => []
  | c :: rest => if c.isWhitespace then trimLeftChars rest else c :: rest

/-- JS `String.prototype.trim`: strip whitespace from both ends. -/
def jsTrim (s : String) : String :=
  String.mk ((trimLeftChars (trimLeftChars s.data).reverse).reverse)

/-- `new RegExp(pattern, 'i').test(s)`: case-insensitive unanchored search. -/
def regexTestI (r : Regex) (s : String) : Bool :=
  rtest (ifold r) (jsToLower s).data

/-- The literal pattern string of a regex built from a string literal:
concatenation of its characters. -/
def rstr (s : String) : Regex :=
  s.data.foldr (fun c r => Regex.seq (Regex.chr c) r) Regex.eps

/-- `(a|b|...)` alternation over a non-empty list of branches. -/
def raltList : List Regex → Regex
  | [] => Regex.emp
  | [r] => r
  | r :: rest => Regex.alt r (raltList rest)

/-- The catch-all pattern `.*`. -/
def dotStarRe : Regex := Regex.star Regex.dot

/-! ## String helpers -/

/-- `needle` is a prefix of `hay` (character-wise). -/
def listIsPre : List Char → List Char → Bool
  | [], _ => true
  | _ :: _, [] => false
  | c :: cs, d :: ds => c = d && listIsPre cs ds

/-- `needle` occurs as a contiguous substring of `hay`
(JS `String.prototype.includes`). -/
def listContainsSub (needle : List Char) : List Char → Bool
  | [] => listIsPre needle []
  | c :: rest => listIsPre needle (c :: rest) || listContainsSub needle rest

def strContains (hay needle : String) : Bool :=
  listContainsSub needle.data hay.data

def dollarChar : Char := Char.ofNat 36
def ampChar : Char := Char.ofNat 38
def backquoteChar : Char := Char.ofNat 96
def quoteChar : Char := Char.ofNat 39

/-- ECMA-262 `GetSubstitution` for a string search pattern (no capture
groups): expands the dollar escapes in the replacement string.  `matched` is
the matched text (= the pattern itself), `before` / `after` the parts of the
subject before / after the match. -/
def getSubst (matched before after : List Char) : List Char → List Char
  | [] => []
  | [c] => [c]
  | c :: d :: rest =>
    if c = dollarChar then
      if d = dollarChar then dollarChar :: getSubst matched before after rest
      else if d = ampChar then matched ++ getSubst matched before after rest
      else if d = backquoteChar then before ++ getSubst matched before after rest
      else if d = quoteChar then after ++ getSubst matched before after rest
      else c :: d :: getSubst matched before after rest
    else c :: getSubst matched before after (d :: rest)

/-- Scan for the first occurrence of `pat`, rewrite it, keep the rest.
`before` is the already-scanned portion (accumulator). -/
def replaceOnceAux (pat rep : List Char) (before : List Char) :
    List Char → List Char
  | [] =>
    if listIsPre pat [] then
      before ++ getSubst pat before (List.drop pat.length []) rep ++
        List.drop pat.length []
    else before
  | c :: rest =>
    if listIsPre pat (c :: rest) then
      before ++ getSubst pat before (List.drop pat.length (c :: rest)) rep ++
        List.drop pat.length (c :: rest)
    else replaceOnceAux pat rep (before ++ [c]) rest

/-- JS `s.replace(pat, rep)` with string arguments: replaces only the first
occurrence of `pat` (if any), expanding dollar escapes in `rep`. -/
def jsReplace (s pat rep : String) : String :=
  String.mk (replaceOnceAux pat.data rep.data [] s.data)

/-! ## Data model (interfaces `ConversationState`, `ConversationFlow`) -/

abbrev UserData := List (String × String)

structure ConversationState where
  userId : String
  context : List String
  currentTopic : Option String
  lastInteraction : Nat
  userData : UserData
deriving DecidableEq, Repr

/-- One entry of a flow's `states` object: prompt, ordered transition table,
optional side-effecting action on the user-data bag. -/
structure StateDef where
  prompt : String
  transitions : List (Regex × String)
  action : Option (UserData → String → UserData) := none

structure ConversationFlow where
  name : String
  triggers : List String
  states : List (String × StateDef)
  initialState : String

abbrev Store := List (String × ConversationState)
abbrev FlowMap := List (String × ConversationFlow)

structure Message where
  authorId : String
  content : String
  isFromBot : Bool

/-- JS `Map.prototype.get`. -/
def mapGet {κ α : Type} [DecidableEq κ] : List (κ × α) → κ → Option α
  | [], _ => none
  | (k2, v2) :: rest, k => if k2 = k then some v2 else mapGet rest k

/-- JS `Map.prototype.set`: update in place, else append (keys stay unique,
insertion order is preserved). -/
def mapSet {κ α : Type} [DecidableEq κ] : List (κ × α) → κ → α → List (κ × α)
  | [], k, v => [(k, v)]
  | (k2, v2) :: rest, k, v =>
    if k2 = k then (k, v) :: rest else (k2, v2) :: mapSet rest k v

/-- JS `Map.prototype.delete`. -/
def mapDelete {κ α : Type} [DecidableEq κ] : List (κ × α) → κ → List (κ × α)
  | [], _ => []
  | (k2, v2) :: rest, k => if k2 = k then rest else (k2, v2) :: mapDelete rest k

/-! ## Engine (methods of `ConversationalBot`) -/

/-- `private readonly sessionTimeout = 5 * 60 * 1000` (mod.ts:69). -/
def sessionTimeout : Nat := 5 * 60 * 1000

/-- `isSessionExpired` (mod.ts:516-518). -/
def isSessionExpired (now : Nat) (state : ConversationState) : Bool :=
  decide (now - state.lastInteraction > sessionTimeout)

/-- `content.toLowerCase().trim()` as used at mod.ts:330 and mod.ts:427. -/
def normalizeInput (s : String) : String := jsTrim (jsToLower s)

/-- `detectFlow` (mod.ts:329-339): first registered flow one of whose
triggers occurs in the normalized content. -/
def detectFlow (flows : FlowMap) (content : String) : Option ConversationFlow :=
  let normalizedContent := normalizeInput content
  (flows.map Prod.snd).find?
    (fun flow => flow.triggers.any (fun trigger => strContains normalizedContent trigger))

/-- `createConversationState` (mod.ts:345-353). -/
def createConversationState (now : Nat) (userId topic : String) : ConversationState :=
  { userId := userId, context := [], currentTopic := some topic,
    lastInteraction := now, userData := [] }

/-- `interpolatePrompt` (mod.ts:499-510): one `String.replace` per
`Object.entries(state.userData)` entry, in insertion order. -/
def interpolatePrompt (prompt : String) (state : ConversationState) : String :=
  state.userData.foldl
    (fun result kv => jsReplace result ("\x7b" ++ kv.1 ++ "\x7d") kv.2) prompt

/-- `findNextState` (mod.ts:448-459): first pattern in declaration order
whose regex test succeeds; otherwise the table's `'.*'` entry (the property
lookup `transitions['.*']`, `none` when absent). -/
def findNextState (userInput : String) (transitions : List (Regex × String)) :
    Option String :=
  match transitions.find? (fun pt => regexTestI pt.1 userInput) with
  | some pt => some pt.2
  | none => mapGet transitions dotStarRe

/-- `handleConfusedState` (mod.ts:389-398). -/
def handleConfusedState (conversations : Store) (state : ConversationState) :
    Store × List String :=
  (mapDelete conversations state.userId,
   ["I\x27m a bit confused. Let\x27s start over!"])

/-- `handleInitialState` (mod.ts:404-414). -/
def handleInitialState (conversations : Store) (state : ConversationState)
    (flow : ConversationFlow) (currentState : StateDef) : Store × List String :=
  let state2 := { state with context := state.context ++ [flow.initialState] }
  let prompt := interpolatePrompt currentState.prompt state2
  (mapSet conversations state2.userId state2, [prompt])

/-- `handleUnknownInput` (mod.ts:489-493). -/
def handleUnknownInput : List String :=
  ["I didn\x27t understand that. Could you rephrase?"]

/-- The action step of `processUserInput` (mod.ts:430-432). -/
def applyAction (action : Option (UserData → String → UserData))
    (ud : UserData) (input : String) : UserData :=
  match action with
  | some act => act ud input
  | none => ud

/-- `transitionToNextState` (mod.ts:465-483): push the target name, then —
only if the target resolves — send its prompt and delete the session when
the target is named `complete`. -/
def transitionToNextState (conversations : Store) (state : ConversationState)
    (flow : ConversationFlow) (nextStateName : String) : Store × List String :=
  let state2 := { state with context := state.context ++ [nextStateName] }
  match mapGet flow.states nextStateName with
  | some nextState =>
    let prompt := interpolatePrompt nextState.prompt state2
    if nextStateName = "complete" then
      (mapDelete conversations state2.userId, [prompt])
    else (mapSet conversations state2.userId state2, [prompt])
  | none => (mapSet conversations state2.userId state2, [])

/-- `processUserInput` (mod.ts:420-442). -/
def processUserInput (conversations : Store) (msg : Message)
    (state : ConversationState) (flow : ConversationFlow)
    (currentState : StateDef) : Store × List String :=
  let userInput := normalizeInput msg.content
  let state2 :=
    { state with userData := applyAction currentState.action state.userData msg.content }
  match findNextState userInput currentState.transitions with
  | some nextStateName => transitionToNextState conversations state2 flow nextStateName
  | none => (mapSet conversations state2.userId state2, handleUnknownInput)

/-- `processConversation` (mod.ts:359-383).  The current state name is
`state.context[state.context.length - 1] || flow.initialState`; JS `||`
also falls back on an empty-string last entry. -/
def processConversation (now : Nat) (conversations : Store) (msg : Message)
    (state : ConversationState) (flow : ConversationFlow) : Store × List String :=
  let state2 := { state with lastInteraction := now }
  let lastEntry := state2.context.getLast?.getD ""
  let currentStateName := if lastEntry = "" then flow.initialState else lastEntry
  match mapGet flow.states currentStateName with
  | none => handleConfusedState conversations state2
  | some currentState =>
    if state2.context.length = 0 then
      handleInitialState conversations state2 flow currentState
    else processUserInput conversations msg state2 flow currentState

/-- `handleNewConversation` (mod.ts:294-305). -/
def handleNewConversation (now : Nat) (flows : FlowMap) (conversations : Store)
    (msg : Message) (userId : String) : Store × List String :=
  match detectFlow flows msg.content with
  | some flow =>
    let state := createConversationState now userId flow.name
    let conversations2 := mapSet conversations userId state
    processConversation now conversations2 msg state flow
  | none => (conversations, [])

/-- `handleExistingConversation` (mod.ts:311-323); JS `if (flowName)` also
rejects an empty-string topic. -/
def handleExistingConversation (now : Nat) (flows : FlowMap)
    (conversations : Store) (msg : Message) (state : ConversationState) :
    Store × List String :=
  match state.currentTopic with
  | none => (conversations, [])
  | some flowName =>
    if flowName = "" then (conversations, [])
    else
      match mapGet flows flowName with
      | some flow => processConversation now conversations msg state flow
      | none => (conversations, [])

/-- `createOnboardingFlow` (mod.ts:120-270), with each transition-table
pattern string compiled to its regex AST (brace, quote and backquote
characters in the prompt strings are written with hex escapes). -/
def createOnboardingFlow : ConversationFlow :=
  { name := "onboarding"
    triggers := ["hello", "hi", "start", "help"]
    states :=
      [ ("greeting",
         { prompt := "👋 Hello! I\x27m your conversational assistant. What\x27s your name?"
           transitions := [(dotStarRe, "askPurpose")]
           action := some (fun _ud input => [("name", jsTrim input)]) }),
        ("askPurpose",
         { prompt := "Nice to meet you, \x7bname\x7d! What brings you here today?\n1. Learn about Discord bots\n2. Get help with coding\n3. Just chatting"
           transitions :=
             [ (raltList [rstr "1", rstr "learn", rstr "discord", rstr "bot"], "botLearning"),
               (raltList [rstr "2", rstr "help", rstr "coding", rstr "code"], "codingHelp"),
               (raltList [rstr "3", rstr "chat", rstr "talk"], "casualChat"),
               (dotStarRe, "clarifyPurpose") ] }),
        ("clarifyPurpose",
         { prompt := "I didn\x27t quite understand. Could you tell me which option you\x27d prefer? (1, 2, or 3)"
           transitions :=
             [ (raltList [rstr "1", rstr "learn", rstr "discord", rstr "bot"], "botLearning"),
               (raltList [rstr "2", rstr "help", rstr "coding", rstr "code"], "codingHelp"),
               (raltList [rstr "3", rstr "chat", rstr "talk"], "casualChat"),
               (dotStarRe, "askPurpose") ] }),
        ("botLearning",
         { prompt := "Great! Discord bots are powerful tools. What aspect interests you most?\n• Commands and interactions\n• Event handling\n• API integration"
           transitions :=
             [ (raltList [rstr "command", rstr "interaction"], "commandsInfo"),
               (raltList [rstr "event", rstr "handling"], "eventsInfo"),
               (raltList [rstr "api", rstr "integration"], "apiInfo"),
               (dotStarRe, "complete") ] }),
        ("codingHelp",
         { prompt := "I\x27d be happy to help with coding! What language are you working with?"
           transitions :=
             [ (raltList [rstr "javascript", rstr "js", rstr "typescript", rstr "ts"], "jsHelp"),
               (raltList [rstr "python", rstr "py"], "pythonHelp"),
               (raltList [rstr "deno", rstr "rust"], "denoRustHelp"),
               (dotStarRe, "generalHelp") ] }),
        ("casualChat",
         { prompt := "That\x27s nice! What would you like to talk about?"
           transitions := [(dotStarRe, "complete")] }),
        ("commandsInfo",
         { prompt := "Commands are the primary way users interact with bots. You can use prefix commands (!help) or slash commands (/help). Would you like to see an example?"
           transitions :=
             [ (raltList [rstr "yes", rstr "sure", rstr "ok", rstr "yeah"], "showExample"),
               (raltList [rstr "no", rstr "nope"], "complete"),
               (dotStarRe, "complete") ] }),
        ("eventsInfo",
         { prompt := "Event handling allows your bot to respond to various Discord events like messages, reactions, and member joins. Interested in learning more?"
           transitions :=
             [ (raltList [rstr "yes", rstr "sure", rstr "ok", rstr "yeah"], "showExample"),
               (raltList [rstr "no", rstr "nope"], "complete"),
               (dotStarRe, "complete") ] }),
        ("apiInfo",
         { prompt := "The Discord API provides REST endpoints and WebSocket connections for real-time communication. Would you like documentation links?"
           transitions :=
             [ (raltList [rstr "yes", rstr "sure", rstr "ok", rstr "yeah"], "provideLinks"),
               (raltList [rstr "no", rstr "nope"], "complete"),
               (dotStarRe, "complete") ] }),
        ("showExample",
         { prompt := "Here\x27s a simple Deno example:\n\x60\x60\x60typescript\nbot.events.messageCreate = (bot, message) => \x7b\n  if (message.content === \x27!ping\x27) \x7b\n    sendMessage(bot, message.channelId, \x7b content: \x27Pong!\x27 \x7d);\n  \x7d\n\x7d;\n\x60\x60\x60\nAnything else you\x27d like to know?"
           transitions := [(dotStarRe, "complete")] }),
        ("provideLinks",
         { prompt := "Check out these resources:\n• Discordeno: https://deno.land/x/discordeno\n• Discord API Docs: https://discord.com/developers/docs\n• Deno Deploy: https://deno.com/deploy\n\nIs there anything specific you need help with?"
           transitions := [(dotStarRe, "complete")] }),
        ("jsHelp",
         { prompt := "JavaScript/TypeScript works great with Deno! Are you using Discordeno for Discord?"
           transitions := [(dotStarRe, "complete")] }),
        ("pythonHelp",
         { prompt := "Python is great for Discord bots! Are you familiar with discord.py?"
           transitions := [(dotStarRe, "complete")] }),
        ("denoRustHelp",
         { prompt := "Excellent choice! Deno and Rust are both modern and performant. Which one are you focusing on?"
           transitions := [(dotStarRe, "complete")] }),
        ("generalHelp",
         { prompt := "I can help with various programming concepts. What specific challenge are you facing?"
           transitions := [(dotStarRe, "complete")] }),
        ("complete",
         { prompt := "Thank you for the conversation! Feel free to say \x27hi\x27 again anytime you need help. 😊"
           transitions := [] }) ]
    initialState := "greeting" }

/-- `registerConversationFlows` (mod.ts:111-114): a plain `Map.set` of the
onboarding flow; there is no duplicate check anywhere in the source. -/
def registerConversationFlows (flows : FlowMap) : FlowMap :=
  mapSet flows "onboarding" createOnboardingFlow

/-- `handleMessage` (mod.ts:276-288). -/
def handleMessage (now : Nat) (flows : FlowMap) (conversations : Store)
    (msg : Message) : Store × List String :=
  if msg.isFromBot then (conversations, [])
  else
    let userId := msg.authorId
    match mapGet conversations userId with
    | some state =>
      if isSessionExpired now state then
        handleNewConversation now flows conversations msg userId
      else handleExistingConversation now flows conversations msg state
    | none => handleNewConversation now flows conversations msg userId

/-! ## Helper lemmas -/

lemma rtest_dotStar (cs : List Char) : rtest dotStarRe cs = true := by
  cases cs <;> simp [rtest, matchHere, nullable, dotStarRe]

lemma regexTestI_dotStar (s : String) : regexTestI dotStarRe s = true := by
  simpa [regexTestI, ifold, dotStarRe] using rtest_dotStar (jsToLower s).data

lemma find?_append_of_none {α : Type} (f : α → Bool) (l1 l2 : List α)
    (h : ∀ x ∈ l1, f x = false) :
    List.find? f (l1 ++ l2) = List.find? f l2 := by
  induction l1 with
  | nil => rfl
  | cons a rest ih =>
    have ha : f a = false := h a (List.mem_cons_self a rest)
    simp only [List.cons_append, List.find?, ha]
    exact ih (fun x hx => h x (List.mem_cons_of_mem a hx))

lemma mapGet_eq_none_of_not_mem {κ α : Type} [DecidableEq κ]
    (m : List (κ × α)) (k : κ) (h : ∀ v, (k, v) ∉ m) : mapGet m k = none := by
  induction m with
  | nil => rfl
  | cons kv rest ih =>
    obtain ⟨k2, v2⟩ := kv
    by_cases hk : k2 = k
    · subst hk
      exact absurd (List.mem_cons_self (k2, v2) rest) (h v2)
    · simp only [mapGet, if_neg hk]
      exact ih (fun v hv => h v (List.mem_cons_of_mem _ hv))

lemma mapGet_mapSet_self {κ α : Type} [DecidableEq κ]
    (m : List (κ × α)) (k : κ) (v : α) : mapGet (mapSet m k v) k = some v := by
  induction m with
  | nil => simp [mapSet, mapGet]
  | cons kv rest ih =>
    obtain ⟨k2, v2⟩ := kv
    by_cases hk : k2 = k
    · simp [mapSet, hk, mapGet]
    · simp [mapSet, hk, mapGet, ih]

lemma mapSet_mapSet {κ α : Type} [DecidableEq κ]
    (m : List (κ × α)) (k : κ) (a b : α) :
    mapSet (mapSet m k a) k b = mapSet m k b := by
  induction m with
  | nil => simp [mapSet]
  | cons kv rest ih =>
    obtain ⟨k2, v2⟩ := kv
    by_cases hk : k2 = k
    · simp [mapSet, hk]
    · simp [mapSet, hk, ih]

lemma mapGet_mapDelete_self {κ α : Type} [DecidableEq κ]
    (m : List (κ × α)) (k : κ) (hnodup : (m.map Prod.fst).Nodup) :
    mapGet (mapDelete m k) k = none := by
  induction m with
  | nil => rfl
  | cons kv rest ih =>
    obtain ⟨k2, v2⟩ := kv
    simp only [List.map_cons, List.nodup_cons] at hnodup
    by_cases hk : k2 = k
    · subst hk
      simp only [mapDelete, if_pos rfl]
      apply mapGet_eq_none_of_not_mem
      intro v hv
      exact hnodup.1 (List.mem_map_of_mem Prod.fst hv)
    · simp only [mapDelete, if_neg hk, mapGet, if_neg hk]
      exact ih hnodup.2

/-- First-match evaluation of the transition loop: if no pattern before
`(p, t)` matches and `p` matches, the loop returns `t`. -/
lemma findNextState_first (input : String) (pre post : List (Regex × String))
    (p : Regex) (t : String)
    (hpre : ∀ q ∈ pre, regexTestI q.1 input = false)
    (hp : regexTestI p input = true) :
    findNextState input (pre ++ (p, t) :: post) = some t := by
  unfold findNextState
  rw [find?_append_of_none _ pre _ (fun q hq => hpre q hq)]
  simp [List.find?, hp]

/-- If no pattern in the table matches and no `'.*'` key is present, the
matcher yields `none`. -/
lemma findNextState_no_match (input : String) (ts : List (Regex × String))
    (hall : ∀ q ∈ ts, regexTestI q.1 input = false)
    (hcatch : ∀ t, (dotStarRe, t) ∉ ts) :
    findNextState input ts = none := by
  unfold findNextState
  have hfind : List.find? (fun pt => regexTestI pt.1 input) ts = none := by
    rw [List.find?_eq_none]
    intro q hq
    simp [hall q hq]
  rw [hfind]
  exact mapGet_eq_none_of_not_mem ts dotStarRe hcatch

lemma listIsPre_append_self (xs ys : List Char) :
    listIsPre xs (xs ++ ys) = true := by
  induction xs with
  | nil => rfl
  | cons c rest ih => simp [listIsPre, ih]

lemma getSubst_no_dollar (matched before after rep : List Char)
    (h : ∀ c ∈ rep, c ≠ dollarChar) :
    getSubst matched before after rep = rep := by
  induction rep with
  | nil => rfl
  | cons c rest ih =>
    have hc : c ≠ dollarChar := h c (List.mem_cons_self c rest)
    have hrest := ih (fun d hd => h d (List.mem_cons_of_mem c hd))
    cases rest with
    | nil => simp [getSubst]
    | cons d rest2 => simp [getSubst, hc, hrest]

lemma replaceOnceAux_no_occur (pat rep : List Char) (s : List Char)
    (h : listContainsSub pat s = false) :
    ∀ before, replaceOnceAux pat rep before s = before ++ s := by
  induction s with
  | nil =>
    intro before
    simp only [listContainsSub] at h
    simp [replaceOnceAux, h]
  | cons c rest ih =>
    intro before
    simp only [listContainsSub, Bool.or_eq_false_iff] at h
    simp only [replaceOnceAux, h.1, if_neg Bool.false_ne_true]
    rw [ih h.2 (before ++ [c])]
    simp

/-- JS `replace` on a subject with no occurrence of the pattern is the
identity. -/
lemma jsReplace_no_occur (s pat rep : String) (h : strContains s pat = false) :
    jsReplace s pat rep = s := by
  unfold jsReplace
  rw [replaceOnceAux_no_occur pat.data rep.data s.data h []]
  simp

lemma replaceOnceAux_pos (pat rep before s : List Char)
    (h : listIsPre pat s = true) :
    replaceOnceAux pat rep before s =
      before ++ getSubst pat before (s.drop pat.length) rep ++
        s.drop pat.length := by
  cases s with
  | nil => simp [replaceOnceAux, h]
  | cons c rest => simp [replaceOnceAux, h]

lemma replaceOnceAux_neg (pat rep before : List Char) (c : Char)
    (rest : List Char) (h : listIsPre pat (c :: rest) = false) :
    replaceOnceAux pat rep before (c :: rest) =
      replaceOnceAux pat rep (before ++ [c]) rest := by
  simp [replaceOnceAux, h]

/-- JS `replace` rewrites exactly the first occurrence: if the subject
splits as `pre ++ pat ++ suf` with no occurrence of `pat` starting inside
`pre`, the result is `pre ++ substitution ++ suf`. -/
lemma replaceOnceAux_first (pat rep : List Char) (pre suf : List Char)
    (hfirst : ∀ i, i < pre.length →
      listIsPre pat ((pre ++ pat ++ suf).drop i) = false) :
    ∀ before, replaceOnceAux pat rep before (pre ++ pat ++ suf) =
      before ++ pre ++ getSubst pat (before ++ pre) suf rep ++ suf := by
  induction pre with
  | nil =>
    intro before
    have hp : listIsPre pat (pat ++ suf) = true := listIsPre_append_self pat suf
    simp only [List.nil_append]
    rw [replaceOnceAux_pos pat rep before (pat ++ suf) hp, List.drop_left]
    simp
  | cons c pre' ih =>
    intro before
    have h0 : listIsPre pat (c :: (pre' ++ pat ++ suf)) = false := by
      have := hfirst 0 (by simp)
      simpa using this
    have hstep : replaceOnceAux pat rep before ((c :: pre') ++ pat ++ suf) =
        replaceOnceAux pat rep (before ++ [c]) (pre' ++ pat ++ suf) := by
      simpa using replaceOnceAux_neg pat rep before c (pre' ++ pat ++ suf) h0
    rw [hstep, ih (fun i hi => by
      have := hfirst (i + 1) (by simpa using Nat.succ_lt_succ hi)
      simpa using this) (before ++ [c])]
    simp

lemma jsReplace_first (s pat rep : String) (pre suf : List Char)
    (hsplit : s.data = pre ++ pat.data ++ suf)
    (hfirst : ∀ i, i < pre.length → listIsPre pat.data (s.data.drop i) = false)
    (hrep : ∀ c ∈ rep.data, c ≠ dollarChar) :
    jsReplace s pat rep = String.mk (pre ++ rep.data ++ suf) := by
  unfold jsReplace
  rw [hsplit, replaceOnceAux_first pat.data rep.data pre suf
    (fun i hi => by rw [← hsplit]; exact hfirst i hi) []]
  rw [getSubst_no_dollar _ _ _ _ hrep]
  simp

/-- Identity of the interpolation fold when no listed key's placeholder
occurs in the template, by list induction with the template generalized. -/
lemma interpolate_fold_of_no_occur (l : UserData) :
    ∀ template : String,
      (∀ kv ∈ l, strContains template ("\x7b" ++ kv.1 ++ "\x7d") = false) →
      l.foldl (fun result kv =>
        jsReplace result ("\x7b" ++ kv.1 ++ "\x7d") kv.2) template = template := by
  induction l with
  | nil => intro template _; rfl
  | cons kv rest ih =>
    intro template h
    simp only [List.foldl_cons]
    rw [jsReplace_no_occur template _ kv.2 (h kv (List.mem_cons_self kv rest))]
    exact ih template (fun kv2 h2 => h kv2 (List.mem_cons_of_mem kv h2))

/-- Rendering a template in which no data key's placeholder occurs is the
identity, whatever the data bag holds. -/
lemma interpolate_of_no_occur (template : String) (st : ConversationState)
    (h : ∀ kv ∈ st.userData,
      strContains template ("\x7b" ++ kv.1 ++ "\x7d") = false) :
    interpolatePrompt template st = template :=
  interpolate_fold_of_no_occur st.userData template h

/-! ## Engine path lemmas -/

/-- Alive session whose current state name (the last history entry) does
not resolve: `processConversation` takes the `handleConfusedState` branch. -/
lemma handleMessage_confused_path (now : Nat) (flows : FlowMap)
    (conversations : Store) (msg : Message) (st : ConversationState)
    (fn : String) (flow : ConversationFlow) (cur : String)
    (hbot : msg.isFromBot = false)
    (hget : mapGet conversations msg.authorId = some st)
    (hexp : isSessionExpired now st = false)
    (htopic : st.currentTopic = some fn) (hfn : fn ≠ "")
    (hflow : mapGet flows fn = some flow)
    (hlast : st.context.getLast? = some cur) (hcur : cur ≠ "")
    (hstates : mapGet flow.states cur = none) :
    handleMessage now flows conversations msg =
      (mapDelete conversations st.userId,
       ["I\x27m a bit confused. Let\x27s start over!"]) := by
  simp only [handleMessage, hbot, Bool.false_eq_true, if_false, hget]
  simp only [hexp, Bool.false_eq_true, if_false]
  simp only [handleExistingConversation, htopic, if_neg hfn, hflow]
  simp only [processConversation, hlast, Option.getD_some, if_neg hcur, hstates]
  simp [handleConfusedState]

/-- A message from a user with no live session whose content triggers a
flow with a resolvable initial state: the message only creates the session
at the initial state and emits that state's prompt. -/
lemma handleMessage_new_path (now : Nat) (flows : FlowMap)
    (conversations : Store) (msg : Message) (flow : ConversationFlow)
    (initSt : StateDef)
    (hbot : msg.isFromBot = false)
    (hsess : mapGet conversations msg.authorId = none ∨
      ∃ stOld, mapGet conversations msg.authorId = some stOld ∧
        isSessionExpired now stOld = true)
    (hdet : detectFlow flows msg.content = some flow)
    (hinit : mapGet flow.states flow.initialState = some initSt) :
    handleMessage now flows conversations msg =
      (mapSet conversations msg.authorId
        { userId := msg.authorId, context := [flow.initialState],
          currentTopic := some flow.name, lastInteraction := now,
          userData := [] },
       [initSt.prompt]) := by
  have hnew : handleNewConversation now flows conversations msg msg.authorId =
      (mapSet conversations msg.authorId
        { userId := msg.authorId, context := [flow.initialState],
          currentTopic := some flow.name, lastInteraction := now,
          userData := [] },
       [initSt.prompt]) := by
    simp only [handleNewConversation, hdet, createConversationState]
    simp only [processConversation, List.getLast?, Option.getD_none,
      handleInitialState, List.nil_append, List.length_nil]
    simp [hinit, mapSet_mapSet, interpolatePrompt]
  rcases hsess with hnone | ⟨stOld, hsome, hexp⟩
  · simp only [handleMessage, hbot, Bool.false_eq_true, if_false, hnone]
    exact hnew
  · simp only [handleMessage, hbot, Bool.false_eq_true, if_false, hsome, hexp,
      if_pos rfl]
    exact hnew

/-- Alive session with a resolvable current state and non-empty history:
`handleMessage` reduces to `processUserInput` on the refreshed state. -/
lemma handleMessage_alive_input (now : Nat) (flows : FlowMap)
    (conversations : Store) (msg : Message) (st : ConversationState)
    (fn : String) (flow : ConversationFlow) (cur : String) (cs : StateDef)
    (hbot : msg.isFromBot = false)
    (hget : mapGet conversations msg.authorId = some st)
    (hexp : isSessionExpired now st = false)
    (htopic : st.currentTopic = some fn) (hfn : fn ≠ "")
    (hflow : mapGet flows fn = some flow)
    (hlast : st.context.getLast? = some cur) (hcur : cur ≠ "")
    (hstates : mapGet flow.states cur = some cs) :
    handleMessage now flows conversations msg =
      processUserInput conversations msg
        { st with lastInteraction := now } flow cs := by
  have hne : st.context ≠ [] := by
    intro h
    rw [h] at hlast
    simp [List.getLast?] at hlast
  simp only [handleMessage, hbot, Bool.false_eq_true, if_false, hget]
  simp only [hexp, Bool.false_eq_true, if_false]
  simp only [handleExistingConversation, htopic, if_neg hfn, hflow]
  simp only [processConversation, hlast, Option.getD_some, if_neg hcur, hstates]
  simp only [List.length_eq_zero, if_neg hne]
  rw [htopic]

/-! ## Claim theorems -/

/-- The round-trip table of C1: `{"(1|yes)": "A", ".*": "B"}`. -/
def c1Table : List (Regex × String) :=
  [(raltList [rstr "1", rstr "yes"], "A"), (dotStarRe, "B")]

/-- C1: the transition matcher evaluates the patterns in declaration order
against the normalized (lower-cased, trimmed) input and returns the target
of the first pattern whose regex match succeeds; when no explicit pattern
before a catch-all `.*` entry matches, the catch-all's target is returned;
when no pattern matches and no catch-all is present the result is `none`;
and on the table `{"(1|yes)": "A", ".*": "B"}` input `"1"` yields `"A"`,
`"yes please"` yields `"A"`, `"nah"` yields `"B"`. -/
theorem c1_first_match_wins :
    (∀ (input : String) (pre post : List (Regex × String)) (p : Regex)
      (t : String),
      (∀ q ∈ pre, regexTestI q.1 (normalizeInput input) = false) →
      regexTestI p (normalizeInput input) = true →
      findNextState (normalizeInput input) (pre ++ (p, t) :: post) = some t) ∧
    (∀ (input : String) (pre post : List (Regex × String)) (t : String),
      (∀ q ∈ pre, regexTestI q.1 (normalizeInput input) = false) →
      findNextState (normalizeInput input) (pre ++ (dotStarRe, t) :: post) =
        some t) ∧
    (∀ (input : String) (ts : List (Regex × String)),
      (∀ q ∈ ts, regexTestI q.1 (normalizeInput input) = false) →
      (∀ t, (dotStarRe, t) ∉ ts) →
      findNextState (normalizeInput input) ts = none) ∧
    findNextState (normalizeInput "1") c1Table = some "A" ∧
    findNextState (normalizeInput "yes please") c1Table = some "A" ∧
    findNextState (normalizeInput "nah") c1Table = some "B" := by
  refine ⟨?_, ?_, ?_, by decide, by decide, by decide⟩
  · intro input pre post p t hpre hp
    exact findNextState_first (normalizeInput input) pre post p t hpre hp
  · intro input pre post t hpre
    exact findNextState_first (normalizeInput input) pre post dotStarRe t hpre
      (regexTestI_dotStar (normalizeInput input))
  · intro input ts hall hcatch
    exact findNextState_no_match (normalizeInput input) ts hall hcatch

/-- Witness for C1: the first-match clause applied to a concrete table and
input, with every hypothesis discharged by evaluation. -/
theorem c1_first_match_wins_witness :
    findNextState (normalizeInput "nah there")
      [(raltList [rstr "1", rstr "yes"], "A"), (dotStarRe, "B")] = some "B" :=
  c1_first_match_wins.1 "nah there" [(raltList [rstr "1", rstr "yes"], "A")]
    [] dotStarRe "B" (by decide) (by decide)

/-- A session state carrying only the data bag `{name: "Bob"}`. -/
def c2State : ConversationState :=
  { userId := "u", context := [], currentTopic := none,
    lastInteraction := 0, userData := [("name", "Bob")] }

/-- C2 counterexample: `interpolatePrompt` replaces only the FIRST
occurrence of `{name}` (JS `String.replace` with a string pattern), so a
template with two occurrences does not become `"Bob and Bob"` as the claim
("every occurrence ... not only the first") requires. -/
theorem c2_counterexample :
    interpolatePrompt "\x7bname\x7d and \x7bname\x7d" c2State =
      "Bob and \x7bname\x7d" ∧
    interpolatePrompt "\x7bname\x7d and \x7bname\x7d" c2State ≠
      "Bob and Bob" := by
  constructor
  · decide
  · decide

/-- C2 (amended): for every template, single-entry data bag `{k: v}` and
dollar-free value, rendering replaces exactly the first occurrence of the
placeholder `{k}` — the part before it and everything after it (including
any further occurrences) are kept verbatim. -/
theorem c2_first_occurrence_replaced (st : ConversationState)
    (k v template : String) (pre suf : List Char)
    (hud : st.userData = [(k, v)])
    (hsplit : template.data = pre ++ ("\x7b" ++ k ++ "\x7d").data ++ suf)
    (hfirst : ∀ i, i < pre.length →
      listIsPre ("\x7b" ++ k ++ "\x7d").data (template.data.drop i) = false)
    (hv : ∀ c ∈ v.data, c ≠ dollarChar) :
    interpolatePrompt template st = String.mk (pre ++ v.data ++ suf) := by
  unfold interpolatePrompt
  rw [hud]
  simp only [List.foldl_cons, List.foldl_nil]
  exact jsReplace_first template _ v pre suf hsplit hfirst hv

/-- Witness for C2 (amended) at a concrete template and bag. -/
theorem c2_first_occurrence_replaced_witness :
    interpolatePrompt "Hi \x7bname\x7d! Bye \x7bname\x7d." c2State =
      String.mk ("Hi ".data ++ "Bob".data ++ "! Bye \x7bname\x7d.".data) :=
  c2_first_occurrence_replaced c2State "name" "Bob"
    "Hi \x7bname\x7d! Bye \x7bname\x7d." "Hi ".data "! Bye \x7bname\x7d.".data
    rfl (by decide) (by decide) (by decide)

/-- A second flow definition carrying the name `onboarding`. -/
def c6Flow : ConversationFlow :=
  { name := "onboarding", triggers := [], states := [], initialState := "x" }

/-- C6 counterexample: registering the onboarding flow into a registry that
already holds a flow under the name `onboarding` silently overwrites that
entry (`Map.set` at mod.ts:113); no failure of any kind occurs, refuting
"fails with DuplicateFlowError (does not silently overwrite)". -/
theorem c6_counterexample :
    mapGet (registerConversationFlows [("onboarding", c6Flow)]) "onboarding" =
      some createOnboardingFlow ∧
    createOnboardingFlow.triggers ≠ c6Flow.triggers := by
  constructor
  · rfl
  · decide

/-- C6 (amended): registration always (re)binds the name `onboarding` to
the freshly created onboarding flow, whether or not a flow with that name
is already present — a silent overwrite, with no duplicate check and no
`DuplicateFlowError` anywhere in the code. -/
theorem c6_register_overwrites (flows : FlowMap) :
    mapGet (registerConversationFlows flows) "onboarding" =
      some createOnboardingFlow :=
  mapGet_mapSet_self flows "onboarding" createOnboardingFlow

/-- Data bag `{a: "{b}", b: "1"}` in its two enumeration orders. -/
def c7StateA : ConversationState :=
  { userId := "u", context := [], currentTopic := none,
    lastInteraction := 0, userData := [("a", "\x7bb\x7d"), ("b", "1")] }

def c7StateB : ConversationState :=
  { userId := "u", context := [], currentTopic := none,
    lastInteraction := 0, userData := [("b", "1"), ("a", "\x7bb\x7d")] }

/-- C7 counterexample: the two states carry the same key/value mapping in
different enumeration orders, yet render the same template differently —
and in the first order the substituted value `"{b}"` IS re-scanned and
replaced by the later key `b`.  Both halves of the claim (order
independence, no re-scanning) fail. -/
theorem c7_counterexample :
    c7StateA.userData.Perm c7StateB.userData ∧
    interpolatePrompt "\x7ba\x7d" c7StateA = "1" ∧
    interpolatePrompt "\x7ba\x7d" c7StateB = "\x7bb\x7d" ∧
    interpolatePrompt "\x7ba\x7d" c7StateA ≠
      interpolatePrompt "\x7ba\x7d" c7StateB := by
  refine ⟨?_, by decide, by decide, by decide⟩
  decide

/-- C7 (amended): template rendering is a SEQUENTIAL substitution in the
bag's enumeration order — rendering under a concatenated bag is rendering
under the first part followed by rendering the result under the second
part, so substituted values are re-scanned by later keys and the result
can depend on enumeration order. -/
theorem c7_sequential_substitution (template u : String) (c : List String)
    (t : Option String) (l : Nat) (d1 d2 : UserData) :
    interpolatePrompt template
        { userId := u, context := c, currentTopic := t,
          lastInteraction := l, userData := d1 ++ d2 } =
      interpolatePrompt
        (interpolatePrompt template
          { userId := u, context := c, currentTopic := t,
            lastInteraction := l, userData := d1 })
        { userId := u, context := c, currentTopic := t,
          lastInteraction := l, userData := d2 } := by
  simp [interpolatePrompt, List.foldl_append]

/-- Data bag `{a: "{", b: "B"}` (in that enumeration order). -/
def c8State : ConversationState :=
  { userId := "u", context := [], currentTopic := none,
    lastInteraction := 0, userData := [("a", "\x7b"), ("b", "B")] }

/-- C8 counterexample: in the template `"{a}b}"` the only occurrence of a
data-key placeholder is `{a}` (the middle conjunct records that `{b}` does
not occur in it), so under the claim the trailing `"b}"` must be left
untouched and the result be `"{b}"`.  Actually the substituted value `"{"`
completes a new `{b}` occurrence which the later key `b` then replaces,
producing `"B"` and consuming template text outside any placeholder
occurrence. -/
theorem c8_counterexample :
    interpolatePrompt "\x7ba\x7db\x7d" c8State = "B" ∧
    strContains "\x7ba\x7db\x7d" "\x7bb\x7d" = false ∧
    interpolatePrompt "\x7ba\x7db\x7d" c8State ≠ "\x7bb\x7d" := by
  refine ⟨by decide, by decide, by decide⟩

/-- C8 (amended): rendering only ever rewrites occurrences of `{key}` for
keys present in the data, taken sequentially over the evolving result, so a
template part outside such occurrences survives unless a substituted value
completes a new placeholder occurrence; in particular placeholders whose
key is absent from the data are never themselves replaced, and — proved
here for every data mapping — a template containing no placeholder of any
data key is returned unchanged. -/
theorem c8_no_data_placeholder_identity (template : String)
    (st : ConversationState)
    (h : ∀ kv ∈ st.userData,
      strContains template ("\x7b" ++ kv.1 ++ "\x7d") = false) :
    interpolatePrompt template st = template :=
  interpolate_of_no_occur template st h

/-- Witness for C8 (amended): a template whose only placeholder refers to a
key absent from the bag `{name: "Bob"}` is returned verbatim. -/
theorem c8_no_data_placeholder_identity_witness :
    interpolatePrompt "Hello \x7bmissing\x7d!" c2State =
      "Hello \x7bmissing\x7d!" :=
  c8_no_data_placeholder_identity "Hello \x7bmissing\x7d!" c2State (by decide)

/-- C3: a message from a user with no live (or an expired) session that
triggers a flow (with resolvable initial state `initSt`) is consumed
entirely by entering the initial state: the stored history becomes exactly
`[flow.initialState]`, the only message sent is the initial state's prompt
(rendered against the empty user-data bag, so it is the prompt itself), the
user-data bag stays empty (the initial state's `action` is not run — the
conclusion holds for every `initSt.action`), and the result does not
depend on `initSt.transitions` (they are quantified and absent from the
conclusion), so only the next message can advance past the initial state. -/
theorem c3_trigger_message_consumed (now : Nat) (flows : FlowMap)
    (conversations : Store) (msg : Message) (flow : ConversationFlow)
    (initSt : StateDef)
    (hbot : msg.isFromBot = false)
    (hsess : mapGet conversations msg.authorId = none ∨
      ∃ stOld, mapGet conversations msg.authorId = some stOld ∧
        isSessionExpired now stOld = true)
    (hdet : detectFlow flows msg.content = some flow)
    (hinit : mapGet flow.states flow.initialState = some initSt) :
    handleMessage now flows conversations msg =
      (mapSet conversations msg.authorId
        { userId := msg.authorId, context := [flow.initialState],
          currentTopic := some flow.name, lastInteraction := now,
          userData := [] },
       [initSt.prompt]) :=
  handleMessage_new_path now flows conversations msg flow initSt hbot hsess
    hdet hinit

/-- The initial state used by the C3 witness: it HAS transitions and an
action, and the witness shows neither fires on the trigger message. -/
def c3InitStateDef : StateDef :=
  { prompt := "P0", transitions := [(dotStarRe, "complete")],
    action := some (fun _ _ => [("k", "v")]) }

def c3Flow : ConversationFlow :=
  { name := "f", triggers := ["hello"], states := [("s0", c3InitStateDef)],
    initialState := "s0" }

/-- Witness for C3: concrete trigger message against an empty store. -/
theorem c3_trigger_message_consumed_witness :
    handleMessage 5 [("f", c3Flow)] []
        { authorId := "42", content := "hello", isFromBot := false } =
      ([("42", { userId := "42", context := ["s0"], currentTopic := some "f",
                 lastInteraction := 5, userData := [] })],
       ["P0"]) :=
  c3_trigger_message_consumed 5 [("f", c3Flow)] []
    { authorId := "42", content := "hello", isFromBot := false } c3Flow
    c3InitStateDef rfl (Or.inl rfl) rfl rfl

/-- C4: when the session's current state name — its last history entry —
does not resolve in the flow's states map, the next message from that user
is answered with the recovery notice and the session is deleted from the
store; `handleMessage` is a total function, so no error propagates past
the handler. -/
theorem c4_corrupted_session_recovered (now : Nat) (flows : FlowMap)
    (conversations : Store) (msg : Message) (st : ConversationState)
    (fn : String) (flow : ConversationFlow) (cur : String)
    (hbot : msg.isFromBot = false)
    (hget : mapGet conversations msg.authorId = some st)
    (hexp : isSessionExpired now st = false)
    (htopic : st.currentTopic = some fn) (hfn : fn ≠ "")
    (hflow : mapGet flows fn = some flow)
    (hlast : st.context.getLast? = some cur) (hcur : cur ≠ "")
    (hstates : mapGet flow.states cur = none) :
    handleMessage now flows conversations msg =
      (mapDelete conversations st.userId,
       ["I\x27m a bit confused. Let\x27s start over!"]) :=
  handleMessage_confused_path now flows conversations msg st fn flow cur
    hbot hget hexp htopic hfn hflow hlast hcur hstates

def c4Flow : ConversationFlow :=
  { name := "f", triggers := ["hello"],
    states := [("s0", { prompt := "P0", transitions := [] })],
    initialState := "s0" }

/-- A session stuck in state `ghost`, which `c4Flow` does not define. -/
def c4State : ConversationState :=
  { userId := "42", context := ["s0", "ghost"], currentTopic := some "f",
    lastInteraction := 0, userData := [] }

/-- Witness for C4: the corrupted session is deleted and the recovery
notice is the only outbound message. -/
theorem c4_corrupted_session_recovered_witness :
    handleMessage 1000 [("f", c4Flow)] [("42", c4State)]
        { authorId := "42", content := "anything", isFromBot := false } =
      ([], ["I\x27m a bit confused. Let\x27s start over!"]) :=
  c4_corrupted_session_recovered 1000 [("f", c4Flow)] [("42", c4State)]
    { authorId := "42", content := "anything", isFromBot := false }
    c4State "f" c4Flow "ghost" rfl rfl (by decide) rfl (by decide) rfl rfl
    (by decide) rfl

/-- Append-only history: however `processConversation` handles a message
for the stored session `st`, any state found afterwards under that user's
key extends `st.context` on the right. -/
lemma processConversation_context_extends (now : Nat) (conversations : Store)
    (msg : Message) (st : ConversationState) (flow : ConversationFlow)
    (huid : st.userId = msg.authorId)
    (hnodup : (conversations.map Prod.fst).Nodup) :
    ∀ st', mapGet (processConversation now conversations msg st flow).1
        msg.authorId = some st' →
      ∃ ext, st'.context = st.context ++ ext := by
  intro st' hst'
  simp only [processConversation] at hst'
  split at hst'
  · -- unresolvable current state: the session is deleted
    simp only [handleConfusedState, huid] at hst'
    rw [mapGet_mapDelete_self conversations msg.authorId hnodup] at hst'
    cases hst'
  · split at hst'
    · -- initial state: exactly the initial state name is appended
      simp only [handleInitialState, huid] at hst'
      rw [mapGet_mapSet_self] at hst'
      obtain rfl := Option.some.inj hst'
      exact ⟨[flow.initialState], rfl⟩
    · -- continuing conversation
      simp only [processUserInput] at hst'
      split at hst'
      · -- matched transition
        simp only [transitionToNextState] at hst'
        split at hst'
        · split at hst'
          · -- transition into `complete`: deleted
            simp only [huid] at hst'
            rw [mapGet_mapDelete_self conversations msg.authorId hnodup] at hst'
            cases hst'
          · -- resolvable non-terminal target: target name appended
            simp only [huid] at hst'
            rw [mapGet_mapSet_self] at hst'
            obtain rfl := Option.some.inj hst'
            exact ⟨_, rfl⟩
        · -- unresolvable target: target name still appended
          simp only [huid] at hst'
          rw [mapGet_mapSet_self] at hst'
          obtain rfl := Option.some.inj hst'
          exact ⟨_, rfl⟩
      · -- no transition matched: history unchanged
        simp only [huid] at hst'
        rw [mapGet_mapSet_self] at hst'
        obtain rfl := Option.some.inj hst'
        exact ⟨[], by simp⟩

/-- Append-only history at the message-handler level, for a live (non
expired) session. -/
lemma handleMessage_context_extends (now : Nat) (flows : FlowMap)
    (conversations : Store) (msg : Message) (st : ConversationState)
    (hbot : msg.isFromBot = false)
    (hget : mapGet conversations msg.authorId = some st)
    (hexp : isSessionExpired now st = false)
    (huid : st.userId = msg.authorId)
    (hnodup : (conversations.map Prod.fst).Nodup) :
    ∀ st', mapGet (handleMessage now flows conversations msg).1
        msg.authorId = some st' →
      ∃ ext, st'.context = st.context ++ ext := by
  have hred : handleMessage now flows conversations msg =
      handleExistingConversation now flows conversations msg st := by
    simp only [handleMessage, hbot, Bool.false_eq_true, if_false, hget]
    simp only [hexp, Bool.false_eq_true, if_false]
  intro st' hst'
  rw [hred] at hst'
  cases htopic : st.currentTopic with
  | none =>
    simp only [handleExistingConversation, htopic] at hst'
    rw [hget] at hst'
    obtain rfl := Option.some.inj hst'
    exact ⟨[], by simp⟩
  | some fn =>
    by_cases hfn : fn = ""
    · simp only [handleExistingConversation, htopic, hfn, if_true] at hst'
      rw [hget] at hst'
      obtain rfl := Option.some.inj hst'
      exact ⟨[], by simp⟩
    · simp only [handleExistingConversation, htopic, if_neg hfn] at hst'
      cases hflow : mapGet flows fn with
      | none =>
        rw [hflow] at hst'
        rw [hget] at hst'
        obtain rfl := Option.some.inj hst'
        exact ⟨[], by simp⟩
      | some flow =>
        rw [hflow] at hst'
        exact processConversation_context_extends now conversations msg st
          flow huid hnodup st' hst'

/-- On a live session with resolvable current state, a matched transition
either deletes the session (target `complete`) or appends exactly one
entry to the history. -/
lemma handleMessage_matched_advance (now : Nat) (flows : FlowMap)
    (conversations : Store) (msg : Message) (st : ConversationState)
    (fn : String) (flow : ConversationFlow) (cur : String) (cs : StateDef)
    (nxt : String)
    (hbot : msg.isFromBot = false)
    (hget : mapGet conversations msg.authorId = some st)
    (hexp : isSessionExpired now st = false)
    (huid : st.userId = msg.authorId)
    (hnodup : (conversations.map Prod.fst).Nodup)
    (htopic : st.currentTopic = some fn) (hfn : fn ≠ "")
    (hflow : mapGet flows fn = some flow)
    (hlast : st.context.getLast? = some cur) (hcur : cur ≠ "")
    (hstate : mapGet flow.states cur = some cs)
    (hfind : findNextState (normalizeInput msg.content) cs.transitions =
      some nxt) :
    mapGet (handleMessage now flows conversations msg).1 msg.authorId =
      none ∨
    ∃ st', mapGet (handleMessage now flows conversations msg).1
        msg.authorId = some st' ∧
      st'.context.length = st.context.length + 1 := by
  rw [handleMessage_alive_input now flows conversations msg st fn flow cur cs
    hbot hget hexp htopic hfn hflow hlast hcur hstate]
  simp only [processUserInput, hfind, transitionToNextState]
  cases hnxt : mapGet flow.states nxt with
  | some nd =>
    by_cases hc : nxt = "complete"
    · subst hc
      simp only [if_pos rfl, huid]
      left
      exact mapGet_mapDelete_self conversations msg.authorId hnodup
    · simp only [if_neg hc, huid]
      right
      refine ⟨_, mapGet_mapSet_self _ _ _, ?_⟩
      simp
  | none =>
    simp only [huid]
    right
    refine ⟨_, mapGet_mapSet_self _ _ _, ?_⟩
    simp

lemma getLast?_append_singleton {α : Type} (l : List α) (a : α) :
    (l ++ [a]).getLast? = some a := by
  rw [List.getLast?_append_cons l a []]
  rfl

/-- C5: for a live session and any processed message, the stored history is
append-only — any state found under the user's key afterwards extends the
old `context` on the right (so its length never decreases); and whenever
the message reaches a matched transition, either the session was deleted
(it is deleted, never reset — the deletion branches are exactly the
terminal `complete` target and, on the following message, an unresolvable
current state) or the stored history grew by exactly one entry. -/
theorem c5_history_append_only (now : Nat) (flows : FlowMap)
    (conversations : Store) (msg : Message) (st : ConversationState)
    (hbot : msg.isFromBot = false)
    (hget : mapGet conversations msg.authorId = some st)
    (hexp : isSessionExpired now st = false)
    (huid : st.userId = msg.authorId)
    (hnodup : (conversations.map Prod.fst).Nodup) :
    (∀ st', mapGet (handleMessage now flows conversations msg).1
        msg.authorId = some st' →
      ∃ ext, st'.context = st.context ++ ext) ∧
    (∀ (fn : String) (flow : ConversationFlow) (cur : String) (cs : StateDef)
      (nxt : String),
      st.currentTopic = some fn → fn ≠ "" →
      mapGet flows fn = some flow →
      st.context.getLast? = some cur → cur ≠ "" →
      mapGet flow.states cur = some cs →
      findNextState (normalizeInput msg.content) cs.transitions = some nxt →
      mapGet (handleMessage now flows conversations msg).1 msg.authorId =
        none ∨
      ∃ st', mapGet (handleMessage now flows conversations msg).1
          msg.authorId = some st' ∧
        st'.context.length = st.context.length + 1) :=
  ⟨handleMessage_context_extends now flows conversations msg st hbot hget
      hexp huid hnodup,
   fun fn flow cur cs nxt htopic hfn hflow hlast hcur hstate hfind =>
     handleMessage_matched_advance now flows conversations msg st fn flow
       cur cs nxt hbot hget hexp huid hnodup htopic hfn hflow hlast hcur
       hstate hfind⟩

def c5Flow : ConversationFlow :=
  { name := "f", triggers := ["hello"],
    states :=
      [ ("s0", { prompt := "P0", transitions := [(dotStarRe, "complete")] }),
        ("complete", { prompt := "done", transitions := [] }) ],
    initialState := "s0" }

def c5State : ConversationState :=
  { userId := "42", context := ["s0"], currentTopic := some "f",
    lastInteraction := 0, userData := [] }

def c5Msg : Message := { authorId := "42", content := "x", isFromBot := false }

/-- Witness for C5 at a concrete store, session and message. -/
theorem c5_history_append_only_witness :
    (∀ st', mapGet (handleMessage 10 [("f", c5Flow)] [("42", c5State)]
        c5Msg).1 c5Msg.authorId = some st' →
      ∃ ext, st'.context = c5State.context ++ ext) ∧
    (∀ (fn : String) (flow : ConversationFlow) (cur : String) (cs : StateDef)
      (nxt : String),
      c5State.currentTopic = some fn → fn ≠ "" →
      mapGet [("f", c5Flow)] fn = some flow →
      c5State.context.getLast? = some cur → cur ≠ "" →
      mapGet flow.states cur = some cs →
      findNextState (normalizeInput c5Msg.content) cs.transitions =
        some nxt →
      mapGet (handleMessage 10 [("f", c5Flow)] [("42", c5State)] c5Msg).1
        c5Msg.authorId = none ∨
      ∃ st', mapGet (handleMessage 10 [("f", c5Flow)] [("42", c5State)]
          c5Msg).1 c5Msg.authorId = some st' ∧
        st'.context.length = c5State.context.length + 1) :=
  c5_history_append_only 10 [("f", c5Flow)] [("42", c5State)] c5Msg c5State
    rfl rfl (by decide) rfl (by decide)

/-- C9: on a live session with resolvable current state, (i) a matched
transition deletes the session EXACTLY when the target resolves in the
flow's states map AND is literally named `complete` (the comparison
`nextStateName === 'complete'` at mod.ts:479); (ii) a current state with an
EMPTY transitions map (whatever its name) matches nothing, so the message
is answered with the generic "didn't understand" reply and the stored
session keeps its history and flow unchanged (only `lastInteraction` and
the action-updated data bag change) — the session stays alive until it
expires. -/
theorem c9_completion_is_literal_complete (now : Nat) (flows : FlowMap)
    (conversations : Store) (msg : Message) (st : ConversationState)
    (fn : String) (flow : ConversationFlow) (cur : String) (cs : StateDef)
    (hbot : msg.isFromBot = false)
    (hget : mapGet conversations msg.authorId = some st)
    (hexp : isSessionExpired now st = false)
    (huid : st.userId = msg.authorId)
    (hnodup : (conversations.map Prod.fst).Nodup)
    (htopic : st.currentTopic = some fn) (hfn : fn ≠ "")
    (hflow : mapGet flows fn = some flow)
    (hlast : st.context.getLast? = some cur) (hcur : cur ≠ "")
    (hstate : mapGet flow.states cur = some cs) :
    (∀ nxt, findNextState (normalizeInput msg.content) cs.transitions =
        some nxt →
      (mapGet (handleMessage now flows conversations msg).1 msg.authorId =
          none ↔
        nxt = "complete" ∧ (mapGet flow.states nxt).isSome = true)) ∧
    (cs.transitions = [] →
      handleMessage now flows conversations msg =
        (mapSet conversations msg.authorId
          { st with
            lastInteraction := now
            userData := applyAction cs.action st.userData msg.content },
         ["I didn\x27t understand that. Could you rephrase?"])) := by
  constructor
  · intro nxt hfind
    rw [handleMessage_alive_input now flows conversations msg st fn flow cur
      cs hbot hget hexp htopic hfn hflow hlast hcur hstate]
    simp only [processUserInput, hfind, transitionToNextState]
    cases hnxt : mapGet flow.states nxt with
    | some nd =>
      by_cases hc : nxt = "complete"
      · subst hc
        simp [huid, hnxt,
          mapGet_mapDelete_self conversations msg.authorId hnodup]
      · simp only [if_neg hc, huid]
        rw [mapGet_mapSet_self]
        simp [hc]
    | none =>
      simp only [huid]
      rw [mapGet_mapSet_self]
      simp [hnxt]
  · intro htr
    rw [handleMessage_alive_input now flows conversations msg st fn flow cur
      cs hbot hget hexp htopic hfn hflow hlast hcur hstate]
    have hf : findNextState (normalizeInput msg.content) cs.transitions =
        none := by
      rw [htr]; rfl
    simp only [processUserInput, hf, handleUnknownInput, huid]

def c9StateDef : StateDef :=
  { prompt := "P0", transitions := [(dotStarRe, "complete")] }

def c9Flow : ConversationFlow :=
  { name := "f", triggers := ["hello"],
    states :=
      [ ("s0", c9StateDef),
        ("complete", { prompt := "done", transitions := [] }) ],
    initialState := "s0" }

def c9State : ConversationState :=
  { userId := "42", context := ["s0"], currentTopic := some "f",
    lastInteraction := 0, userData := [] }

def c9Msg : Message := { authorId := "42", content := "x", isFromBot := false }

/-- Witness for C9: the deletion criterion instantiated at a transition
into the resolvable state named `complete`. -/
theorem c9_completion_is_literal_complete_witness :
    mapGet (handleMessage 10 [("f", c9Flow)] [("42", c9State)] c9Msg).1
        c9Msg.authorId = none ↔
      "complete" = "complete" ∧
        (mapGet c9Flow.states "complete").isSome = true :=
  (c9_completion_is_literal_complete 10 [("f", c9Flow)] [("42", c9State)]
      c9Msg c9State "f" c9Flow "s0" c9StateDef rfl rfl (by decide) rfl
      (by decide) rfl (by decide) rfl rfl (by decide) rfl).1
    "complete" (by decide)

/-- C10: on a matched transition whose target name does not resolve in the
flow's states map, the engine still appends the unresolvable name to the
stored history but sends no message and keeps the session (the
`transitionToNextState` push at mod.ts:472 happens before the resolution
check, and neither prompt nor deletion happens when it fails); the
recovery notice and the deletion then occur on the NEXT (non-expired)
message from that user, because the corruption check of
`processConversation` runs on the current state at entry. -/
theorem c10_unresolvable_target_deferred (now : Nat) (flows : FlowMap)
    (conversations : Store) (msg : Message) (st : ConversationState)
    (fn : String) (flow : ConversationFlow) (cur : String) (cs : StateDef)
    (nxt : String)
    (hbot : msg.isFromBot = false)
    (hget : mapGet conversations msg.authorId = some st)
    (hexp : isSessionExpired now st = false)
    (huid : st.userId = msg.authorId)
    (htopic : st.currentTopic = some fn) (hfn : fn ≠ "")
    (hflow : mapGet flows fn = some flow)
    (hlast : st.context.getLast? = some cur) (hcur : cur ≠ "")
    (hstate : mapGet flow.states cur = some cs)
    (hfind : findNextState (normalizeInput msg.content) cs.transitions =
      some nxt)
    (hnxt : mapGet flow.states nxt = none) (hne : nxt ≠ "") :
    handleMessage now flows conversations msg =
      (mapSet conversations msg.authorId
        { st with
          context := st.context ++ [nxt]
          lastInteraction := now
          userData := applyAction cs.action st.userData msg.content },
       []) ∧
    (∀ (msg2 : Message) (now2 : Nat),
      msg2.isFromBot = false → msg2.authorId = msg.authorId →
      now2 - now ≤ sessionTimeout →
      handleMessage now2 flows
          (mapSet conversations msg.authorId
            { st with
              context := st.context ++ [nxt]
              lastInteraction := now
              userData := applyAction cs.action st.userData msg.content })
          msg2 =
        (mapDelete
          (mapSet conversations msg.authorId
            { st with
              context := st.context ++ [nxt]
              lastInteraction := now
              userData := applyAction cs.action st.userData msg.content })
          st.userId,
         ["I\x27m a bit confused. Let\x27s start over!"])) := by
  constructor
  · rw [handleMessage_alive_input now flows conversations msg st fn flow cur
      cs hbot hget hexp htopic hfn hflow hlast hcur hstate]
    simp only [processUserInput, hfind, transitionToNextState, hnxt, huid]
  · intro msg2 now2 h2bot h2auth h2exp
    have hget2 : mapGet
        (mapSet conversations msg.authorId
          { st with
            context := st.context ++ [nxt]
            lastInteraction := now
            userData := applyAction cs.action st.userData msg.content })
        msg2.authorId =
        some { st with
               context := st.context ++ [nxt]
               lastInteraction := now
               userData := applyAction cs.action st.userData msg.content } := by
      rw [h2auth]
      exact mapGet_mapSet_self _ _ _
    have hexp2 : isSessionExpired now2
        { st with
          context := st.context ++ [nxt]
          lastInteraction := now
          userData := applyAction cs.action st.userData msg.content } =
        false := by
      simp only [isSessionExpired]
      exact decide_eq_false (by omega)
    have hc := handleMessage_confused_path now2 flows
      (mapSet conversations msg.authorId
        { st with
          context := st.context ++ [nxt]
          lastInteraction := now
          userData := applyAction cs.action st.userData msg.content })
      msg2
      { st with
        context := st.context ++ [nxt]
        lastInteraction := now
        userData := applyAction cs.action st.userData msg.content }
      fn flow nxt h2bot hget2 hexp2 htopic hfn hflow
      (getLast?_append_singleton st.context nxt) hne hnxt
    exact hc

def c10StateDef : StateDef :=
  { prompt := "P0", transitions := [(dotStarRe, "ghost")] }

def c10Flow : ConversationFlow :=
  { name := "f", triggers := ["hello"], states := [("s0", c10StateDef)],
    initialState := "s0" }

def c10State : ConversationState :=
  { userId := "42", context := ["s0"], currentTopic := some "f",
    lastInteraction := 0, userData := [] }

def c10Msg : Message := { authorId := "42", content := "x", isFromBot := false }

/-- The session after the transition into the unresolvable state `ghost`. -/
def c10Post : ConversationState :=
  { userId := "42", context := ["s0", "ghost"], currentTopic := some "f",
    lastInteraction := 10, userData := [] }

/-- Witness for C10: the first message silently appends `ghost` and sends
nothing; the next message triggers the recovery notice and the deletion. -/
theorem c10_unresolvable_target_deferred_witness :
    handleMessage 10 [("f", c10Flow)] [("42", c10State)] c10Msg =
      ([("42", c10Post)], []) ∧
    handleMessage 20 [("f", c10Flow)] [("42", c10Post)]
        { authorId := "42", content := "y", isFromBot := false } =
      ([], ["I\x27m a bit confused. Let\x27s start over!"]) :=
  ⟨(c10_unresolvable_target_deferred 10 [("f", c10Flow)] [("42", c10State)]
      c10Msg c10State "f" c10Flow "s0" c10StateDef "ghost" rfl rfl
      (by decide) rfl rfl (by decide) rfl rfl (by decide) rfl (by decide)
      rfl (by decide)).1,
   (c10_unresolvable_target_deferred 10 [("f", c10Flow)] [("42", c10State)]
      c10Msg c10State "f" c10Flow "s0" c10StateDef "ghost" rfl rfl
      (by decide) rfl rfl (by decide) rfl rfl (by decide) rfl (by decide)
      rfl (by decide)).2
     { authorId := "42", content := "y", isFromBot := false } 20 rfl rfl
     (by decide)⟩
